import Mathlib

/-!
Verification of the pdf_processor OCR pipeline (models.py, claude_ocr.py,
pipeline.py, utils.py).

Embedding conventions:

* Python floats are modelled as exact rationals (`Rat`).  The float values
  arising in the claims (0.9, 0.5, ratios of small integers) are exactly
  representable, so no rounding behaviour is lost.
* pydantic v1 model construction is modelled by `mk…` functions returning
  `Option`: `none` is a `ValidationError`.  Two pydantic v1 semantics facts
  are reflected faithfully and are load-bearing:
  1. fields are validated in declaration order, and a `@validator`'s
     `values` dict contains only the fields declared *before* the validated
     field; a guard such as `if 'components' in values` on a field declared
     *before* `components` is therefore always false and the guarded check
     is dead code;
  2. the `Field(ge=…, le=…)` constraints run on the caller-supplied value
     *before* the class validator for that field, and the value *returned*
     by the validator is stored without being re-checked against those
     constraints.
* `datetime` fields (`compilation_time`) carry no constraints and appear in
  no claim; they are omitted from the embedding.
* External effects (file I/O, the Bedrock network call, PyMuPDF
  rasterisation, logging, sleeping) are abstracted: the provider is a
  function from attempt number to a call outcome, and rasterisation is
  summarised by the page count plus a failure flag.
* `json.loads` is embedded as an executable JSON reader over `List Char`
  producing a `Json` tree; numbers are read exactly into `Rat`.  pydantic's
  lenient coercions of numbers to `str` fields and of booleans to numeric
  fields are not modelled (no claim depends on them); numeric JSON values
  feeding the `List[int]` bbox field are truncated toward zero as Python's
  `int()` does.
-/

namespace PDFProc

/-- A parsed JSON value, the result of `json.loads` on the model response. -/
inductive Json where
  | null
  | bool (b : Bool)
  | num (q : Rat)
  | str (s : String)
  | arr (elems : List Json)
  | obj (members : List (String × Json))

/-- Embeds `models.Component` (a pydantic model): one extracted content unit. -/
structure Component where
  component_id : String
  type : String
  content : String
  confidence : Rat
  bbox : List Int
deriving DecidableEq

/-- The closed enumeration from `Component.validate_type` in models.py. -/
def allowedTypes : List String := ["text", "table", "image", "header", "footer"]

/-- Embeds construction of `models.Component`: `confidence` carries
`Field(ge=0.0, le=1.0)`, `bbox` carries `Field(min_items=4, max_items=4)`,
and the `validate_type` validator requires membership in `allowedTypes`.
`none` is a pydantic `ValidationError`. -/
def mkComponent (component_id ty content : String) (confidence : Rat)
    (bbox : List Int) : Option Component :=
  if 0 ≤ confidence ∧ confidence ≤ 1 ∧ bbox.length = 4 ∧ ty ∈ allowedTypes then
    some ⟨component_id, ty, content, confidence, bbox⟩
  else none

/-- Embeds `models.Page`. -/
structure Page where
  page_number : Int
  component_count : Int
  components : List Component
deriving DecidableEq

/-- Embeds construction of `models.Page`: `page_number` carries
`Field(ge=1)` and `component_count` carries `Field(ge=0)`.  The
`validate_component_count` validator guards its check with
`if 'components' in values`; since `components` is declared *after*
`component_count`, it is never in `values` when `component_count` is
validated, so the count-vs-length check never runs (pydantic v1 semantics
fact 1 in the header). -/
def mkPage (page_number component_count : Int) (components : List Component) :
    Option Page :=
  if 1 ≤ page_number ∧ 0 ≤ component_count then
    some ⟨page_number, component_count, components⟩
  else none

/-- Embeds `models.ComponentStatistics`: one integer tally per component
type, each defaulting to 0. -/
structure ComponentStatistics where
  text : Int
  table : Int
  image : Int
  header : Int
  footer : Int
deriving DecidableEq

/-- The all-zero tally produced by `ComponentStatistics()`. -/
def ComponentStatistics.init : ComponentStatistics := ⟨0, 0, 0, 0, 0⟩

/-- The sum of the five per-type counters. -/
def statsSum (s : ComponentStatistics) : Int :=
  s.text + s.table + s.image + s.header + s.footer

/-- Embeds the statistics update in `PDFProcessor.process_single_pdf`
(pipeline.py lines 79-82): `if hasattr(component_stats, component.type)`
then increment that counter; a `ComponentStatistics` instance has exactly
the five attributes, so any other type string updates nothing. -/
def ComponentStatistics.update (s : ComponentStatistics) (ty : String) :
    ComponentStatistics :=
  if ty = "text" then { s with text := s.text + 1 }
  else if ty = "table" then { s with table := s.table + 1 }
  else if ty = "image" then { s with image := s.image + 1 }
  else if ty = "header" then { s with header := s.header + 1 }
  else if ty = "footer" then { s with footer := s.footer + 1 }
  else s

/-- Embeds `models.ProcessedDocument` (the `compilation_time` timestamp is
omitted, see header). -/
structure ProcessedDocument where
  job_id : String
  filename : String
  total_pages : Int
  total_components : Int
  expected_components : Int
  completeness : Rat
  component_statistics : ComponentStatistics
  average_confidence : Rat
  pages : List Page
deriving DecidableEq

/-- Embeds construction of `models.ProcessedDocument`.  Field constraints:
`total_pages ≥ 1`, `total_components ≥ 0`, `expected_components ≥ 0`,
`0 ≤ completeness ≤ 1` and `0 ≤ average_confidence ≤ 1` are checked on the
caller-supplied values.  The `validate_total_pages` and
`validate_total_components` validators guard with `if 'pages' in values`;
`pages` is declared last, so neither cross-check ever runs (pydantic v1
semantics fact 1).  The `calculate_completeness` validator *replaces* the
supplied completeness with `total_components / expected_components` when
`expected_components > 0` and with `1.0` otherwise, and the replacement is
not re-checked against the ge/le bounds (pydantic v1 semantics fact 2). -/
def mkProcessedDocument (job_id filename : String)
    (total_pages total_components expected_components : Int)
    (completeness : Rat) (component_statistics : ComponentStatistics)
    (average_confidence : Rat) (pages : List Page) : Option ProcessedDocument :=
  if 1 ≤ total_pages ∧ 0 ≤ total_components ∧ 0 ≤ expected_components ∧
      0 ≤ completeness ∧ completeness ≤ 1 ∧
      0 ≤ average_confidence ∧ average_confidence ≤ 1 then
    some { job_id := job_id, filename := filename, total_pages := total_pages,
           total_components := total_components,
           expected_components := expected_components,
           completeness :=
             if 0 < expected_components then
               (total_components : Rat) / (expected_components : Rat)
             else 1,
           component_statistics := component_statistics,
           average_confidence := average_confidence, pages := pages }
  else none

/-- Embeds `utils.estimate_expected_components` with its default
`avg_components_per_page = 8`. -/
def estimate_expected_components (page_count : Int)
    (avg_components_per_page : Int := 8) : Int :=
  page_count * avg_components_per_page

/-- JSON whitespace (RFC 8259: space, tab, line feed, carriage return). -/
def isJsonWs (c : Char) : Bool :=
  c = ' ' ∨ c = '\t' ∨ c = '\n' ∨ c = '\r'

/-- Drops leading JSON whitespace. -/
def skipWs : List Char → List Char
  | [] => []
  | c :: rest => if isJsonWs c then skipWs rest else c :: rest

/-- Value of a hexadecimal digit, for `\\uXXXX` escapes. -/
def hexVal? (c : Char) : Option Nat :=
  if '0' ≤ c ∧ c ≤ '9' then some (c.toNat - '0'.toNat)
  else if 'a' ≤ c ∧ c ≤ 'f' then some (c.toNat - 'a'.toNat + 10)
  else if 'A' ≤ c ∧ c ≤ 'F' then some (c.toNat - 'A'.toNat + 10)
  else none

/-- Translation of a single-character JSON string escape. -/
def escChar? (c : Char) : Option Char :=
  if c = '"' then some '"'
  else if c = '\\' then some '\\'
  else if c = '/' then some '/'
  else if c = 'b' then some '\x08'
  else if c = 'f' then some '\x0c'
  else if c = 'n' then some '\n'
  else if c = 'r' then some '\r'
  else if c = 't' then some '\t'
  else none

/-- Reads the body of a JSON string literal (the opening quote already
consumed), returning the decoded characters and the remaining input.
`\\uXXXX` escapes decode to the code point directly (surrogate pairing, an
astral-plane concern, is not modelled; no claim involves it). -/
def parseStringChars : List Char → Option (List Char × List Char)
  | [] => none
  | c :: rest =>
    if c = '"' then some ([], rest)
    else if c = '\\' then
      match rest with
      | [] => none
      | e :: rest2 =>
        if e = 'u' then
          match rest2 with
          | h1 :: h2 :: h3 :: h4 :: rest3 => do
            let n1 ← hexVal? h1
            let n2 ← hexVal? h2
            let n3 ← hexVal? h3
            let n4 ← hexVal? h4
            let (tail, r) ← parseStringChars rest3
            pure (Char.ofNat (((n1 * 16 + n2) * 16 + n3) * 16 + n4) :: tail, r)
          | _ => none
        else do
          let ec ← escChar? e
          let (tail, r) ← parseStringChars rest2
          pure (ec :: tail, r)
    else do
      let (tail, r) ← parseStringChars rest
      pure (c :: tail, r)

/-- Decimal digit test. -/
def isDigitCh (c : Char) : Bool := '0' ≤ c ∧ c ≤ '9'

/-- Splits off the maximal leading run of decimal digits. -/
def takeDigits : List Char → List Char × List Char
  | [] => ([], [])
  | c :: rest =>
    if isDigitCh c then
      let (ds, r) := takeDigits rest
      (c :: ds, r)
    else ([], c :: rest)

/-- Numeric value of a digit run. -/
def digitsVal (ds : List Char) : Nat :=
  ds.foldl (fun acc c => acc * 10 + (c.toNat - '0'.toNat)) 0

/-- Reads the signed digits of an exponent and scales the value. -/
def parseExpDigits (v : Rat) (cs : List Char) : Option (Rat × List Char) :=
  let (negExp, cs1) :=
    match cs with
    | '+' :: r => (false, r)
    | '-' :: r => (true, r)
    | _ => (false, cs)
  let (eds, cs2) := takeDigits cs1
  if eds = [] then none
  else
    let e := digitsVal eds
    some (if negExp then v / (10 : Rat) ^ e else v * (10 : Rat) ^ e, cs2)

/-- Reads an optional exponent part (`e`/`E`, optional sign, digits) and
applies it to the value read so far. -/
def parseExpPart (v : Rat) (cs : List Char) : Option (Rat × List Char) :=
  match cs with
  | 'e' :: r => parseExpDigits v r
  | 'E' :: r => parseExpDigits v r
  | _ => some (v, cs)

/-- Reads the unsigned part of a JSON number: an integer part with no
leading zeros, an optional fraction, an optional exponent. -/
def parseNumAux (cs : List Char) : Option (Rat × List Char) :=
  let (ids, cs2) := takeDigits cs
  match ids with
  | [] => none
  | d :: ds =>
    if d = '0' ∧ ds ≠ [] then none
    else
      let base : Rat := (digitsVal (d :: ds) : Nat)
      match cs2 with
      | '.' :: r =>
        let (fds, cs3) := takeDigits r
        if fds = [] then none
        else parseExpPart (base + (digitsVal fds : Rat) / (10 : Rat) ^ fds.length) cs3
      | _ => parseExpPart base cs2

/-- Reads a JSON number (optional leading minus), exactly, into `Rat`. -/
def parseNumber (cs : List Char) : Option (Json × List Char) :=
  match cs with
  | '-' :: r => (parseNumAux r).map (fun vr => (Json.num (-vr.1), vr.2))
  | _ => (parseNumAux cs).map (fun vr => (Json.num vr.1, vr.2))

/-- The three recursion modes of the JSON reader: a full value, the
elements of a non-empty array after `[`, or the members of a non-empty
object after the opening brace. -/
inductive ParseTask where
  | value
  | arrTail
  | objTail

/-- Fuel-indexed JSON reader.  `arrTail` and `objTail` return the collected
`Json.arr`/`Json.obj`; duplicate object keys are all retained in order (the
`lookupLast` accessor below reproduces the last-wins behaviour of a Python
dict built by `json.loads`). -/
def parseF : Nat → ParseTask → List Char → Option (Json × List Char)
  | 0, _, _ => none
  | fuel + 1, ParseTask.value, cs =>
    match skipWs cs with
    | [] => none
    | c :: rest =>
      if c = '\x7b' then
        match skipWs rest with
        | '\x7d' :: rest2 => some (Json.obj [], rest2)
        | rest2 => parseF fuel ParseTask.objTail rest2
      else if c = '[' then
        match skipWs rest with
        | ']' :: rest2 => some (Json.arr [], rest2)
        | rest2 => parseF fuel ParseTask.arrTail rest2
      else if c = '"' then
        (parseStringChars rest).map (fun sr => (Json.str (String.mk sr.1), sr.2))
      else if c = 't' then
        match rest with
        | 'r' :: 'u' :: 'e' :: rest2 => some (Json.bool true, rest2)
        | _ => none
      else if c = 'f' then
        match rest with
        | 'a' :: 'l' :: 's' :: 'e' :: rest2 => some (Json.bool false, rest2)
        | _ => none
      else if c = 'n' then
        match rest with
        | 'u' :: 'l' :: 'l' :: rest2 => some (Json.null, rest2)
        | _ => none
      else parseNumber (c :: rest)
  | fuel + 1, ParseTask.arrTail, cs => do
    let (j, rest) ← parseF fuel ParseTask.value cs
    match skipWs rest with
    | ',' :: rest2 => do
      let (tail, rest3) ← parseF fuel ParseTask.arrTail rest2
      match tail with
      | Json.arr xs => some (Json.arr (j :: xs), rest3)
      | _ => none
    | ']' :: rest2 => some (Json.arr [j], rest2)
    | _ => none
  | fuel + 1, ParseTask.objTail, cs =>
    match skipWs cs with
    | '"' :: rest => do
      let (kcs, rest1) ← parseStringChars rest
      match skipWs rest1 with
      | ':' :: rest2 => do
        let (v, rest3) ← parseF fuel ParseTask.value rest2
        match skipWs rest3 with
        | ',' :: rest4 => do
          let (tail, rest5) ← parseF fuel ParseTask.objTail rest4
          match tail with
          | Json.obj kvs => some (Json.obj ((String.mk kcs, v) :: kvs), rest5)
          | _ => none
        | '\x7d' :: rest4 => some (Json.obj [(String.mk kcs, v)], rest4)
        | _ => none
      | _ => none
    | _ => none

/-- Embeds `json.loads` on a character slice: reads one JSON value and
requires only whitespace to remain.  The fuel `2 * length + 2` dominates
the reader's recursion depth (each two fuel steps consume at least one
input character). -/
def jsonLoads (cs : List Char) : Option Json :=
  match parseF (2 * cs.length + 2) ParseTask.value cs with
  | some (j, rest) => if skipWs rest = [] then some j else none
  | none => none

/-- Embeds Python `str.find`: index of the first occurrence, `None` for -1. -/
def findChar : List Char → Char → Option Nat
  | [], _ => none
  | c :: rest, t => if c = t then some 0 else (findChar rest t).map (· + 1)

/-- Embeds Python `str.rfind`: index of the last occurrence, `None` for -1. -/
def rfindChar : List Char → Char → Option Nat
  | [], _ => none
  | c :: rest, t =>
    match rfindChar rest t with
    | some i => some (i + 1)
    | none => if c = t then some 0 else none

/-- Embeds Python `dict` lookup on the member list produced by
`json.loads`: with duplicate keys the dict keeps the last value. -/
def lookupLast (kvs : List (String × Json)) (k : String) : Option Json :=
  match kvs with
  | [] => none
  | (k0, v0) :: rest =>
    match lookupLast rest k with
    | some v => some v
    | none => if k0 = k then some v0 else none

/-- A JSON value usable for a pydantic `str` field (see header: numeric
coercion to `str` is not modelled). -/
def Json.asStr? : Json → Option String
  | Json.str s => some s
  | _ => none

/-- A JSON value usable for a pydantic `float` field (ints and floats both
arrive as `Json.num`). -/
def Json.asNum? : Json → Option Rat
  | Json.num q => some q
  | _ => none

/-- Python `int()` truncation toward zero, used by pydantic to coerce a
float to an `int` field. -/
def truncInt (q : Rat) : Int :=
  if 0 ≤ q then q.floor else q.ceil

/-- A JSON value usable for the pydantic `List[int]` bbox field: a JSON
array whose elements are numbers, each truncated as `int()` does. -/
def Json.asIntList? : Json → Option (List Int)
  | Json.arr xs => xs.mapM (fun j => (Json.asNum? j).map truncInt)
  | _ => none

/-- Embeds the per-component body of the `for comp_data in …` loop in
`ClaudeOCR._parse_claude_response` (claude_ocr.py lines 226-236): the three
subscript accesses raise `KeyError` on a missing key (or `TypeError` when
`comp_data` is not a dict), `confidence` and `bbox` fall back to the
defaults `0.9` and `[0, 0, 0, 0]` via `.get`, and `Component(...)`
validates; any exception makes this one component `none` (dropped with a
warning). -/
def validateComponent (j : Json) : Option Component :=
  match j with
  | Json.obj kvs => do
    let cid ← Json.asStr? (← lookupLast kvs "component_id")
    let ty ← Json.asStr? (← lookupLast kvs "type")
    let content ← Json.asStr? (← lookupLast kvs "content")
    let conf ← Json.asNum? ((lookupLast kvs "confidence").getD (Json.num (mkRat 9 10)))
    let bbox ← Json.asIntList? ((lookupLast kvs "bbox").getD
      (Json.arr [Json.num 0, Json.num 0, Json.num 0, Json.num 0]))
    mkComponent cid ty content conf bbox
  | _ => none

/-- Embeds the accumulation of the `components` list in
`_parse_claude_response`: validated components are appended in order,
failed ones are skipped. -/
def buildComponents : List Json → List Component
  | [] => []
  | j :: rest =>
    match validateComponent j with
    | some c => c :: buildComponents rest
    | none => buildComponents rest

/-- Embeds Python iteration over the value of `data.get('components', [])`:
lists iterate their elements, strings iterate their characters (as 1-char
strings), dicts iterate their keys; other values raise `TypeError`, which
the outer handler turns into a page failure. -/
def Json.iterElems : Json → Option (List Json)
  | Json.arr xs => some xs
  | Json.str s => some (s.toList.map (fun c => Json.str (String.mk [c])))
  | Json.obj kvs => some (kvs.map (fun kv => Json.str kv.1))
  | _ => none

/-- Embeds the part of `_parse_claude_response` after `json.loads`
succeeds: `data.get('components', [])` (an `AttributeError` on a non-dict
is a page failure), the component loop, and the `Page(...)` construction
with `component_count=len(components)`. -/
def pageFromData (data : Json) (page_number : Int) : Option Page :=
  match data with
  | Json.obj kvs =>
    match Json.iterElems ((lookupLast kvs "components").getD (Json.arr [])) with
    | some cands =>
      let components := buildComponents cands
      mkPage page_number (components.length : Int) components
    | none => none
  | _ => none

/-- Embeds `ClaudeOCR._parse_claude_response` (claude_ocr.py lines
200-250): slice the response from the first `\x7b` to one past the last
`\x7d` (failing the page when either is absent), `json.loads` the slice,
then build the `Page`; any exception yields `None`. -/
def parseClaudeResponse (response : String) (page_number : Int) : Option Page :=
  match findChar response.toList '\x7b', rfindChar response.toList '\x7d' with
  | some jstart, some jlast =>
    match jsonLoads ((response.toList.drop jstart).take (jlast + 1 - jstart)) with
    | some data => pageFromData data page_number
    | none => none
  | _, _ => none

/-- config.MAX_RETRIES. -/
def MAX_RETRIES : Nat := 3

/-- Outcome of one `_call_bedrock_claude` invocation, as distinguished by
the `except` clauses of `ClaudeOCR.process_image`: a response text, a
`ClientError` with code `ThrottlingException`, any other `ClientError`
(authorization, malformed request, …), or any other exception. -/
inductive CallResult where
  | ok (text : String)
  | throttled
  | clientError
  | excOther
deriving DecidableEq

/-- How the retry `for` loop of `ClaudeOCR.process_image` terminates:
an explicit `return page_data`, an exception escaping the loop, or the
loop running out of attempts (falling through to an implicit `None`). -/
inductive LoopOutcome where
  | retPage (p : Page)
  | raised
  | fellThrough

/-- Embeds the retry loop of `ClaudeOCR.process_image` (claude_ocr.py
lines 64-89) together with the number of provider calls it makes.
`remaining` counts the iterations still to run (initially `MAX_RETRIES`);
a successful call whose parse yields `None` simply continues; a throttling
error sleeps and continues (even on the last attempt); any other
`ClientError` re-raises at once; any other exception re-raises only on the
last attempt (`attempt < MAX_RETRIES - 1` is `remaining tail ≠ 0`). -/
def processImageLoop (provider : Nat → CallResult) (page_number : Int) :
    Nat → Nat → LoopOutcome × Nat
  | _, 0 => (LoopOutcome.fellThrough, 0)
  | attempt, r + 1 =>
    match provider attempt with
    | CallResult.ok text =>
      match parseClaudeResponse text page_number with
      | some p => (LoopOutcome.retPage p, 1)
      | none =>
        let rec2 := processImageLoop provider page_number (attempt + 1) r
        (rec2.1, rec2.2 + 1)
    | CallResult.throttled =>
      let rec2 := processImageLoop provider page_number (attempt + 1) r
      (rec2.1, rec2.2 + 1)
    | CallResult.clientError => (LoopOutcome.raised, 1)
    | CallResult.excOther =>
      if r = 0 then (LoopOutcome.raised, 1)
      else
        let rec2 := processImageLoop provider page_number (attempt + 1) r
        (rec2.1, rec2.2 + 1)

/-- Embeds `ClaudeOCR.process_image` as seen by its caller: the outer
`try`/`except Exception` catches every exception escaping the retry loop
and returns `None`, and loop exhaustion also falls through to `None`. -/
def process_image (provider : Nat → CallResult) (page_number : Int) :
    Option Page :=
  match (processImageLoop provider page_number 0 MAX_RETRIES).1 with
  | LoopOutcome.retPage p => some p
  | LoopOutcome.raised => none
  | LoopOutcome.fellThrough => none

/-- Number of Bedrock calls one `process_image` invocation makes. -/
def processImageCalls (provider : Nat → CallResult) (page_number : Int) : Nat :=
  (processImageLoop provider page_number 0 MAX_RETRIES).2

/-- Whether an exception escaped the retry loop (to be swallowed by the
outer handler of `process_image`). -/
def processImageRaised (provider : Nat → CallResult) (page_number : Int) : Bool :=
  match (processImageLoop provider page_number 0 MAX_RETRIES).1 with
  | LoopOutcome.raised => true
  | _ => false

/-- The per-document accumulator of `PDFProcessor.process_single_pdf`
(pipeline.py lines 62-66). -/
structure FoldState where
  pages : List Page
  total_components : Int
  confidence_sum : Rat
  confidence_count : Nat
  component_stats : ComponentStatistics

/-- The initial accumulator: empty page list, zero totals,
`ComponentStatistics()`. -/
def FoldState.init : FoldState := ⟨[], 0, 0, 0, ComponentStatistics.init⟩

/-- Embeds the inner `for component in page.components` loop (pipeline.py
lines 78-86): update the per-type tally (guarded by `hasattr`) and the
running confidence sum and count. -/
def updateStats (stats : ComponentStatistics) (csum : Rat) (ccount : Nat) :
    List Component → ComponentStatistics × Rat × Nat
  | [] => (stats, csum, ccount)
  | c :: rest => updateStats (stats.update c.type) (csum + c.confidence) (ccount + 1) rest

/-- Embeds the page loop of `process_single_pdf` (pipeline.py lines
68-88): each page image is processed by `process_image` with the page's
provider behaviour; a successful page is appended and folded into the
totals, a failed page is skipped with a warning. -/
def processPages (provider : Nat → Nat → CallResult) :
    List Nat → FoldState → FoldState
  | [], st => st
  | pageNum :: rest, st =>
    match process_image (provider pageNum) (pageNum : Int) with
    | some page =>
      let upd :=
        updateStats st.component_stats st.confidence_sum st.confidence_count
          page.components
      processPages provider rest
        { pages := st.pages ++ [page],
          total_components := st.total_components + page.component_count,
          confidence_sum := upd.2.1, confidence_count := upd.2.2,
          component_stats := upd.1 }
    | none => processPages provider rest st

/-- Embeds `PDFProcessor.process_single_pdf` (pipeline.py lines 36-124).
External collaborators are abstracted: `path_valid` is the result of
`validate_pdf_path`; `page_count` is `get_pdf_info(...)['page_count']`;
`conversion_fails` covers `get_pdf_info` or `convert_pdf_to_images`
raising (the outer handler then returns `None`); `provider` gives each
(page number, attempt) its Bedrock outcome.  The converter yields the
1-indexed page numbers `1..page_count` in order.  `average_confidence` is
`confidence_sum / confidence_count` (0 with no components), the
completeness argument is `total_components / expected_components` when the
estimate is positive and `1.0` otherwise, and a `ValidationError` from
`ProcessedDocument(...)` is caught by the outer handler (`None`). -/
def process_single_pdf (job_id filename : String) (path_valid : Bool)
    (page_count : Nat) (conversion_fails : Bool)
    (provider : Nat → Nat → CallResult) : Option ProcessedDocument :=
  if path_valid = false then none
  else if conversion_fails = true then none
  else
    let imagePages := (List.range page_count).map (· + 1)
    let st := processPages provider imagePages FoldState.init
    let avg_confidence : Rat :=
      if 0 < st.confidence_count then st.confidence_sum / (st.confidence_count : Rat)
      else 0
    let expected := estimate_expected_components (page_count : Int)
    mkProcessedDocument job_id filename (page_count : Int) st.total_components
      expected
      (if 0 < expected then (st.total_components : Rat) / (expected : Rat) else 1)
      st.component_stats avg_confidence st.pages

/-- The accumulator state after the page loop of a `process_single_pdf` run
over `page_count` pages (page numbers `1..page_count`). -/
def pipelineState (provider : Nat → Nat → CallResult) (page_count : Nat) :
    FoldState :=
  processPages provider ((List.range page_count).map (· + 1)) FoldState.init

/-- A model response whose JSON carries two valid text components (each
omitting `confidence` and `bbox`, which therefore take the defaults). -/
def twoCompResponse : String :=
  "\x7b\"components\": [\x7b\"component_id\": \"1_0\", \"type\": \"text\", \"content\": \"a\"\x7d, \x7b\"component_id\": \"1_1\", \"type\": \"text\", \"content\": \"b\"\x7d]\x7d"

/-- The spec's scenario response text: prose around an empty components
object (the braces are the byte values 0x7b/0x7d). -/
def c2Response : String := "Here is the result:\n\x7b\"components\": []\x7d\nThanks"

/-- Provider behaviour for the spec's 3-page scenario: pages 1 and 3
answer with valid 2-component JSON on every attempt; page 2 fails every
attempt with a persistent non-rate-limit error. -/
def c1Provider : Nat → Nat → CallResult := fun page _ =>
  if page = 2 then CallResult.excOther else CallResult.ok twoCompResponse

/-- Provider behaviour with a non-transient `ClientError` on page 2 and a
good response on page 1. -/
def c3Provider : Nat → Nat → CallResult := fun page _ =>
  if page = 2 then CallResult.clientError else CallResult.ok twoCompResponse

/-- A model response carrying nine valid components on one page (more than
the heuristic expectation of 8 per page). -/
def nineCompResponse : String :=
  "\x7b\"components\": [\x7b\"component_id\": \"1_0\", \"type\": \"text\", \"content\": \"a\"\x7d, \x7b\"component_id\": \"1_1\", \"type\": \"text\", \"content\": \"a\"\x7d, \x7b\"component_id\": \"1_2\", \"type\": \"text\", \"content\": \"a\"\x7d, \x7b\"component_id\": \"1_3\", \"type\": \"text\", \"content\": \"a\"\x7d, \x7b\"component_id\": \"1_4\", \"type\": \"text\", \"content\": \"a\"\x7d, \x7b\"component_id\": \"1_5\", \"type\": \"text\", \"content\": \"a\"\x7d, \x7b\"component_id\": \"1_6\", \"type\": \"text\", \"content\": \"a\"\x7d, \x7b\"component_id\": \"1_7\", \"type\": \"text\", \"content\": \"a\"\x7d, \x7b\"component_id\": \"1_8\", \"type\": \"text\", \"content\": \"a\"\x7d]\x7d"

/-- A candidate component object that passes validation. -/
def c4Good : Json :=
  Json.obj [("component_id", Json.str "1_0"), ("type", Json.str "text"),
            ("content", Json.str "a")]

/-- A candidate component object with an unrecognised type (dropped). -/
def c4Bad : Json :=
  Json.obj [("component_id", Json.str "1_1"), ("type", Json.str "blob"),
            ("content", Json.str "b")]

/-- A parsed top-level response object holding one valid and one invalid
candidate component. -/
def c4KVs : List (String × Json) := [("components", Json.arr [c4Good, c4Bad])]

/-- A candidate component with the three required keys only (no
`confidence`, no `bbox`). -/
def c9KVs : List (String × Json) :=
  [("component_id", Json.str "2_0"), ("type", Json.str "table"),
   ("content", Json.str "t")]

/-- A directly constructed document record with 20 components against an
expectation of 40. -/
def docC5 : ProcessedDocument :=
  ⟨"j", "f.pdf", 5, 20, 40, mkRat 1 2, ComponentStatistics.init, 0, []⟩

/-- The component produced from `twoCompResponse`, index 0. -/
def compA : Component := ⟨"1_0", "text", "a", mkRat 9 10, [0, 0, 0, 0]⟩

/-- The component produced from `twoCompResponse`, index 1. -/
def compB : Component := ⟨"1_1", "text", "b", mkRat 9 10, [0, 0, 0, 0]⟩

/-- The document produced by a 1-page run whose only page answers with
`twoCompResponse`. -/
def docOnePage : ProcessedDocument :=
  ⟨"j", "f.pdf", 1, 2, 8, mkRat 1 4, ⟨2, 0, 0, 0, 0⟩, mkRat 9 10,
   [⟨1, 2, [compA, compB]⟩]⟩

attribute [local semireducible] Rat.add Rat.mul Rat.inv Rat.sub

set_option maxRecDepth 40000

/-- Python `str.find` returns -1 (here `none`) exactly when the character is
absent. -/
theorem findChar_eq_none (l : List Char) (t : Char) (h : t ∉ l) :
    findChar l t = none := by
  induction l with
  | nil => rfl
  | cons c rest ih =>
    rw [findChar, if_neg fun he => h (by rw [← he]; exact List.mem_cons_self c rest),
      ih fun hm => h (List.mem_cons_of_mem _ hm)]
    rfl

/-- Python `str.rfind` returns -1 (here `none`) exactly when the character is
absent. -/
theorem rfindChar_eq_none (l : List Char) (t : Char) (h : t ∉ l) :
    rfindChar l t = none := by
  induction l with
  | nil => rfl
  | cons c rest ih =>
    rw [rfindChar, ih fun hm => h (List.mem_cons_of_mem _ hm)]
    exact if_neg fun he => h (by rw [← he]; exact List.mem_cons_self c rest)

/-- The append-on-success loop over candidate components is a `filterMap`:
each candidate is validated independently and failures are dropped. -/
theorem buildComponents_eq_filterMap (l : List Json) :
    buildComponents l = l.filterMap validateComponent := by
  induction l with
  | nil => rfl
  | cons j rest ih =>
    rw [buildComponents, List.filterMap_cons]
    cases validateComponent j <;> simp [ih]

/-- A component accepted by `Component(...)` has a type in the closed
enumeration. -/
theorem mkComponent_type_mem (cid ty content : String) (conf : Rat)
    (bbox : List Int) (c : Component)
    (h : mkComponent cid ty content conf bbox = some c) :
    c.type ∈ allowedTypes := by
  rw [mkComponent] at h
  split at h
  · rename_i hcond
    cases h
    exact hcond.2.2.2
  · exact absurd h (by simp)

/-- Any component surviving the per-candidate validation has a type in the
closed enumeration. -/
theorem validateComponent_type_mem (j : Json) (c : Component)
    (h : validateComponent j = some c) : c.type ∈ allowedTypes := by
  cases j with
  | obj kvs =>
    simp only [validateComponent, Option.bind_eq_bind, Option.bind_eq_some] at h
    obtain ⟨a1, -, cid, -, a2, -, ty, -, a3, -, content, -, conf, -, bbox, -, hmk⟩ := h
    exact mkComponent_type_mem _ _ _ _ _ _ hmk
  | null => simp [validateComponent] at h
  | bool b => simp [validateComponent] at h
  | num q => simp [validateComponent] at h
  | str s => simp [validateComponent] at h
  | arr xs => simp [validateComponent] at h

/-- Inversion for `Page(...)` construction. -/
theorem mkPage_eq_some (pn cnt : Int) (comps : List Component) (p : Page)
    (h : mkPage pn cnt comps = some p) : p = ⟨pn, cnt, comps⟩ := by
  rw [mkPage] at h
  split at h
  · cases h; rfl
  · exact absurd h (by simp)

/-- A page built from parsed data has its count computed from the
validated components, all of whose types are in the closed enumeration. -/
theorem pageFromData_spec (d : Json) (pn : Int) (p : Page)
    (h : pageFromData d pn = some p) :
    p.component_count = (p.components.length : Int) ∧
      ∀ c ∈ p.components, c.type ∈ allowedTypes := by
  cases d <;> simp only [pageFromData] at h <;> try exact absurd h (by simp)
  rename_i kvs
  split at h
  · rename_i cands hcands
    have hp := mkPage_eq_some _ _ _ _ h
    subst hp
    refine ⟨rfl, ?_⟩
    intro c hc
    rw [buildComponents_eq_filterMap] at hc
    obtain ⟨j, -, hj⟩ := List.mem_filterMap.mp hc
    exact validateComponent_type_mem _ _ hj
  · exact absurd h (by simp)

/-- Any page returned by `_parse_claude_response` has its count computed
from the validated components, whose types are all in the closed
enumeration. -/
theorem parseClaudeResponse_spec (s : String) (pn : Int) (p : Page)
    (h : parseClaudeResponse s pn = some p) :
    p.component_count = (p.components.length : Int) ∧
      ∀ c ∈ p.components, c.type ∈ allowedTypes := by
  rw [parseClaudeResponse] at h
  split at h
  · split at h
    · exact pageFromData_spec _ _ _ h
    · exact absurd h (by simp)
  · exact absurd h (by simp)

/-- If the retry loop returns a page, some attempt's response text parsed
to that page. -/
theorem processImageLoop_retPage (provider : Nat → CallResult) (pn : Int) :
    ∀ (r a : Nat) (p : Page),
      (processImageLoop provider pn a r).1 = LoopOutcome.retPage p →
      ∃ t, parseClaudeResponse t pn = some p := by
  intro r
  induction r with
  | zero => intro a p h; simp [processImageLoop] at h
  | succ r ih =>
    intro a p h
    rw [processImageLoop] at h
    cases hpa : provider a <;> rw [hpa] at h <;> simp only [] at h
    case ok text =>
      cases hpt : parseClaudeResponse text pn <;> rw [hpt] at h <;>
        simp only [] at h
      case none => exact ih (a + 1) p h
      case some q =>
        injection h with h3
        exact ⟨text, h3 ▸ hpt⟩
    case throttled => exact ih (a + 1) p h
    case clientError => exact LoopOutcome.noConfusion h
    case excOther =>
      split at h
      · exact LoopOutcome.noConfusion h
      · simp only [] at h
        exact ih (a + 1) p h

/-- Any page the extraction client hands to the pipeline has its count
computed from its components, whose types are all in the closed
enumeration. -/
theorem process_image_spec (provider : Nat → CallResult) (pn : Int) (p : Page)
    (h : process_image provider pn = some p) :
    p.component_count = (p.components.length : Int) ∧
      ∀ c ∈ p.components, c.type ∈ allowedTypes := by
  rw [process_image] at h
  split at h
  · rename_i q hq
    cases h
    obtain ⟨t, ht⟩ := processImageLoop_retPage provider pn MAX_RETRIES 0 _ hq
    exact parseClaudeResponse_spec _ _ _ ht
  · exact absurd h (by simp)
  · exact absurd h (by simp)

/-- A non-throttling `ClientError` re-raises out of the retry loop at once,
after a single provider call. -/
theorem processImageLoop_clientError (provider : Nat → CallResult) (pn : Int)
    (a r : Nat) (h : provider a = CallResult.clientError) :
    processImageLoop provider pn a (r + 1) = (LoopOutcome.raised, 1) := by
  rw [processImageLoop, h]

/-- Tallying a component whose type is in the closed enumeration increments
exactly one counter. -/
theorem statsSum_update (s : ComponentStatistics) (ty : String)
    (h : ty ∈ allowedTypes) : statsSum (s.update ty) = statsSum s + 1 := by
  simp only [allowedTypes, List.mem_cons, List.not_mem_nil, or_false] at h
  rcases h with rfl | rfl | rfl | rfl | rfl <;>
    simp [ComponentStatistics.update, statsSum] <;> omega

/-- Folding a list of components whose types are all in the closed
enumeration adds exactly the list's length to the tally total. -/
theorem updateStats_statsSum :
    ∀ (comps : List Component) (stats : ComponentStatistics) (csum : Rat)
      (ccount : Nat), (∀ c ∈ comps, c.type ∈ allowedTypes) →
      statsSum (updateStats stats csum ccount comps).1 =
        statsSum stats + (comps.length : Int) := by
  intro comps
  induction comps with
  | nil => intro stats csum ccount _; simp [updateStats]
  | cons c rest ih =>
    intro stats csum ccount h
    rw [updateStats, ih _ _ _ fun x hx => h x (List.mem_cons_of_mem _ hx),
      statsSum_update _ _ (h c (List.mem_cons_self c rest))]
    simp only [List.length_cons]
    push_cast
    ring

/-- The page loop preserves the invariant that the per-type tally sums to
the running component total. -/
theorem processPages_statsSum (provider : Nat → Nat → CallResult) :
    ∀ (l : List Nat) (st : FoldState),
      statsSum st.component_stats = st.total_components →
      statsSum (processPages provider l st).component_stats =
        (processPages provider l st).total_components := by
  intro l
  induction l with
  | nil => intro st h; simpa [processPages] using h
  | cons pageNum rest ih =>
    intro st h
    rw [processPages]
    cases himg : process_image (provider pageNum) (pageNum : Int) with
    | none => exact ih st h
    | some page =>
      obtain ⟨hcnt, hmem⟩ := process_image_spec _ _ _ himg
      refine ih _ ?_
      simp only
      rw [updateStats_statsSum _ _ _ _ hmem, h, hcnt]

/-- Inversion for `ProcessedDocument(...)` construction: the stored fields
are the arguments, except that `completeness` is the validator's
recomputed ratio. -/
theorem mkProcessedDocument_eq_some (jid fn : String) (tp tc ec : Int)
    (cpl : Rat) (cs : ComponentStatistics) (ac : Rat) (pgs : List Page)
    (d : ProcessedDocument)
    (h : mkProcessedDocument jid fn tp tc ec cpl cs ac pgs = some d) :
    d.total_pages = tp ∧ d.total_components = tc ∧
      d.expected_components = ec ∧
      d.completeness = (if 0 < ec then (tc : Rat) / (ec : Rat) else 1) ∧
      d.component_statistics = cs ∧ d.pages = pgs := by
  rw [mkProcessedDocument] at h
  split at h
  · cases h; exact ⟨rfl, rfl, rfl, rfl, rfl, rfl⟩
  · exact absurd h (by simp)

/-- Construction `ProcessedDocument(...)` raises when the supplied completeness exceeds
the `le=1.0` bound. -/
theorem mkProcessedDocument_eq_none (jid fn : String) (tp tc ec : Int)
    (cpl : Rat) (cs : ComponentStatistics) (ac : Rat) (pgs : List Page)
    (h : ¬ cpl ≤ 1) :
    mkProcessedDocument jid fn tp tc ec cpl cs ac pgs = none := by
  rw [mkProcessedDocument, if_neg]
  rintro ⟨-, -, -, -, hc, -, -⟩
  exact h hc

/-- C1: in the 3-page scenario where pages 1 and 3 yield valid 2-component
pages on every attempt and page 2 fails every attempt with a persistent
non-rate-limit error (exhausting its retries), the page failure is skipped
and the document still completes, with `total_pages = 3`, `pages` of
length 2, and `total_components = 4`. -/
theorem c1_page_failure_document_completes :
    (process_single_pdf "job" "doc.pdf" true 3 false c1Provider).map
      (fun d => (d.total_pages, d.pages.length, d.total_components)) =
      some (3, 2, 4) := by decide

/-- C2: the response parser takes the substring from the first opening
brace to the last closing brace as the candidate JSON document, failing
the page when either brace is absent, and the scenario text (prose around
an empty components object) parses to a valid zero-component Page for any
valid page number. -/
theorem c2_brace_extraction :
    (∀ (s : String) (pn : Int), '\x7b' ∉ s.toList ∨ '\x7d' ∉ s.toList →
      parseClaudeResponse s pn = none) ∧
    (∀ pn : Int, 1 ≤ pn →
      parseClaudeResponse c2Response pn = some ⟨pn, 0, []⟩) := by
  constructor
  · intro s pn h
    rcases h with h | h
    · rw [parseClaudeResponse, findChar_eq_none _ _ h]
    · rw [parseClaudeResponse, rfindChar_eq_none _ _ h]
      cases findChar s.toList '\x7b' <;> rfl
  · intro pn hpn
    have h0 : parseClaudeResponse c2Response pn = mkPage pn 0 [] := rfl
    rw [h0, mkPage, if_pos ⟨hpn, le_refl (0 : Int)⟩]

/-- Witness for C2 at concrete inputs: a brace-free response fails the
page, and the scenario text parses to the empty page for page 1. -/
theorem c2_witness :
    parseClaudeResponse "no braces here" 1 = none ∧
    parseClaudeResponse c2Response 1 = some ⟨1, 0, []⟩ :=
  ⟨c2_brace_extraction.1 "no braces here" 1 (Or.inl (by decide)),
   c2_brace_extraction.2 1 (by norm_num)⟩

/-- C6: Component construction succeeds for every record with confidence
in [0,1], a 4-element bbox and a type in the closed enumeration, and fails
for any record with a type outside the enumeration or a bbox whose length
is not 4. -/
theorem c6_component_construction :
    (∀ (cid ty content : String) (conf : Rat) (bbox : List Int),
      0 ≤ conf → conf ≤ 1 → bbox.length = 4 → ty ∈ allowedTypes →
      (mkComponent cid ty content conf bbox).isSome = true) ∧
    (∀ (cid ty content : String) (conf : Rat) (bbox : List Int),
      ty ∉ allowedTypes ∨ bbox.length ≠ 4 →
      mkComponent cid ty content conf bbox = none) := by
  constructor
  · intro cid ty content conf bbox h1 h2 h3 h4
    rw [mkComponent, if_pos ⟨h1, h2, h3, h4⟩]
    rfl
  · intro cid ty content conf bbox h
    rw [mkComponent, if_neg]
    rintro ⟨-, -, hlen, hmem⟩
    rcases h with h | h
    · exact h hmem
    · exact h hlen

/-- Witness for C6 at concrete inputs: a valid text component is accepted;
an unknown type and a 3-element bbox are each rejected. -/
theorem c6_witness :
    (mkComponent "1_0" "text" "hello" (mkRat 9 10) [0, 0, 10, 10]).isSome = true ∧
    mkComponent "1_1" "blob" "x" (mkRat 9 10) [0, 0, 10, 10] = none ∧
    mkComponent "1_2" "text" "x" (mkRat 9 10) [0, 0, 10] = none :=
  ⟨c6_component_construction.1 "1_0" "text" "hello" (mkRat 9 10) [0, 0, 10, 10]
      (by decide) (by decide) (by decide) (by decide),
   c6_component_construction.2 "1_1" "blob" "x" (mkRat 9 10) [0, 0, 10, 10]
      (Or.inl (by decide)),
   c6_component_construction.2 "1_2" "text" "x" (mkRat 9 10) [0, 0, 10]
      (Or.inr (by decide))⟩

/-- C7 (code-bug evidence): a Page whose `component_count` (5) differs
from the length of `components` (0) is constructed successfully.  The
`validate_component_count` validator guards its check with
`if 'components' in values`, but `components` is declared after
`component_count`, so pydantic v1 has not validated it yet and the guard
is always false: the claimed construction-time rejection never happens. -/
theorem c7_mismatched_page_constructed : mkPage 1 5 [] = some ⟨1, 5, []⟩ := by
  decide

/-- C4: each candidate component object is validated independently — the
page's component list is exactly the independent per-candidate validation
(`filterMap`) over the candidates, so one failing candidate is dropped
without affecting its siblings or the page — and `component_count` is
exactly the number of successfully validated components, never a count
taken from anywhere in the model's output object. -/
theorem c4_independent_component_validation :
    ∀ (kvs : List (String × Json)) (cands : List Json) (pn : Int), 1 ≤ pn →
      lookupLast kvs "components" = some (Json.arr cands) →
      pageFromData (Json.obj kvs) pn =
        some ⟨pn, ((cands.filterMap validateComponent).length : Int),
              cands.filterMap validateComponent⟩ := by
  intro kvs cands pn hpn h
  rw [pageFromData, h]
  simp only [Option.getD_some, Json.iterElems, buildComponents_eq_filterMap]
  rw [mkPage, if_pos ⟨hpn, Int.natCast_nonneg _⟩]

/-- Witness for C4 at a concrete input: of two candidates the invalid one
(unknown type) is dropped, the valid one is kept with the default
confidence and bbox, and the count is 1. -/
theorem c4_witness :
    pageFromData (Json.obj c4KVs) 1 =
      some ⟨1, 1, [⟨"1_0", "text", "a", mkRat 9 10, [0, 0, 0, 0]⟩]⟩ :=
  (c4_independent_component_validation c4KVs [c4Good, c4Bad] 1 (by norm_num)
      rfl).trans (by decide)

/-- C9: a candidate component lacking the `confidence` or `bbox` key is
not dropped — it is accepted with confidence defaulting to 0.9 and bbox
defaulting to [0, 0, 0, 0] — while a missing `component_id`, `type` or
`content` key drops the candidate. -/
theorem c9_defaults_and_required_keys :
    (∀ (kvs : List (String × Json)) (cid ty content : String),
      lookupLast kvs "component_id" = some (Json.str cid) →
      lookupLast kvs "type" = some (Json.str ty) → ty ∈ allowedTypes →
      lookupLast kvs "content" = some (Json.str content) →
      lookupLast kvs "confidence" = none → lookupLast kvs "bbox" = none →
      validateComponent (Json.obj kvs) =
        some ⟨cid, ty, content, mkRat 9 10, [0, 0, 0, 0]⟩) ∧
    (∀ kvs, lookupLast kvs "component_id" = none →
      validateComponent (Json.obj kvs) = none) ∧
    (∀ kvs, lookupLast kvs "type" = none →
      validateComponent (Json.obj kvs) = none) ∧
    (∀ kvs, lookupLast kvs "content" = none →
      validateComponent (Json.obj kvs) = none) := by
  refine ⟨?_, ?_, ?_, ?_⟩
  · intro kvs cid ty content h1 h2 hty h3 h4 h5
    rw [validateComponent]
    rw [h1, h2, h3, h4, h5]
    simp only [Option.bind_eq_bind, Option.some_bind, Json.asStr?,
      Option.getD_none, Json.asNum?, Option.none_bind]
    rw [show Json.asIntList?
        (Json.arr [Json.num 0, Json.num 0, Json.num 0, Json.num 0]) =
        some [0, 0, 0, 0] by decide]
    simp only [Option.some_bind]
    rw [mkComponent, if_pos ⟨by decide, by decide, by decide, hty⟩]
  · intro kvs h
    rw [validateComponent, h]
    rfl
  · intro kvs h
    rw [validateComponent]
    cases h1 : lookupLast kvs "component_id" with
    | none => simp
    | some v1 =>
      cases hs1 : Json.asStr? v1 with
      | none => simp [hs1]
      | some s1 => simp [hs1, h]
  · intro kvs h
    rw [validateComponent]
    cases h1 : lookupLast kvs "component_id" with
    | none => simp
    | some v1 =>
      cases hs1 : Json.asStr? v1 with
      | none => simp [hs1]
      | some s1 =>
        cases h2 : lookupLast kvs "type" with
        | none => simp [hs1, h2]
        | some v2 =>
          cases hs2 : Json.asStr? v2 with
          | none => simp [hs1, h2, hs2]
          | some s2 => simp [hs1, h2, hs2, h]

/-- Witness for C9 at a concrete input: a candidate with only the three
required keys is accepted with the default confidence 0.9 and default
bbox; dropping `component_id` from it makes validation fail. -/
theorem c9_witness :
    validateComponent (Json.obj c9KVs) =
      some ⟨"2_0", "table", "t", mkRat 9 10, [0, 0, 0, 0]⟩ ∧
    validateComponent (Json.obj [("type", Json.str "table")]) = none :=
  ⟨c9_defaults_and_required_keys.1 c9KVs "2_0" "table" "t" rfl rfl (by decide)
      rfl rfl rfl,
   c9_defaults_and_required_keys.2.1 [("type", Json.str "table")] rfl⟩

/-- C5: the estimator with its default factor returns `page_count * 8`
(40 for 5 pages); every constructed document's stored completeness equals
`total_components / expected_components` when `expected_components > 0`
and `1.0` when it is 0; and 20 components against 40 expected give
completeness one half. -/
theorem c5_estimate_and_completeness :
    (∀ n : Int, estimate_expected_components n = n * 8) ∧
    estimate_expected_components 5 = 40 ∧
    (∀ (jid fn : String) (tp tc ec : Int) (cpl : Rat)
      (cs : ComponentStatistics) (ac : Rat) (pgs : List Page)
      (d : ProcessedDocument),
      mkProcessedDocument jid fn tp tc ec cpl cs ac pgs = some d →
      (0 < d.expected_components →
        d.completeness =
          (d.total_components : Rat) / (d.expected_components : Rat)) ∧
      (d.expected_components = 0 → d.completeness = 1)) ∧
    (mkProcessedDocument "j" "f.pdf" 5 20 40 (mkRat 1 2)
        ComponentStatistics.init 0 []).map ProcessedDocument.completeness =
      some (mkRat 1 2) := by
  refine ⟨fun n => rfl, rfl, ?_, by decide⟩
  intro jid fn tp tc ec cpl cs ac pgs d h
  obtain ⟨-, htc, hec, hcpl, -, -⟩ :=
    mkProcessedDocument_eq_some _ _ _ _ _ _ _ _ _ _ h
  constructor
  · intro h0
    rw [hec] at h0
    rw [hcpl, htc, hec, if_pos h0]
  · intro h0
    have hz : ec = 0 := by rw [← hec, h0]
    rw [hcpl, hz, if_neg (by norm_num)]

/-- Witness for C5: the positive-expectation completeness clause applied
to the concretely constructed `docC5` (20 components, 40 expected). -/
theorem c5_witness :
    docC5.completeness =
      (docC5.total_components : Rat) / (docC5.expected_components : Rat) :=
  (c5_estimate_and_completeness.2.2.1 "j" "f.pdf" 5 20 40 (mkRat 1 2)
      ComponentStatistics.init 0 [] docC5 (by decide)).1 (by decide)

/-- C3 (amended): a non-transient `ClientError` on the first attempt is
not retried — exactly one provider call is made and the exception escapes
the retry loop at once — but the extraction client's top-level handler
catches it and reports page failure (`None`) to its caller rather than
propagating the error. -/
theorem c3_no_retry_error_swallowed :
    ∀ (provider : Nat → CallResult) (pn : Int),
      provider 0 = CallResult.clientError →
      process_image provider pn = none ∧ processImageCalls provider pn = 1 ∧
        processImageRaised provider pn = true := by
  intro provider pn h
  have hl : processImageLoop provider pn 0 MAX_RETRIES =
      (LoopOutcome.raised, 1) := processImageLoop_clientError provider pn 0 2 h
  exact ⟨by rw [process_image, hl], by rw [processImageCalls, hl],
    by rw [processImageRaised, hl]⟩

/-- Witness for C3 (amended) at a concrete provider that yields an
authorization-class `ClientError` on every attempt. -/
theorem c3_witness :
    process_image (fun _ => CallResult.clientError) 7 = none ∧
    processImageCalls (fun _ => CallResult.clientError) 7 = 1 ∧
    processImageRaised (fun _ => CallResult.clientError) 7 = true :=
  c3_no_retry_error_swallowed (fun _ => CallResult.clientError) 7 rfl

/-- C3 (counterexample to the claim as stated): if the non-transient error
propagated out of the extraction client to its caller, the pipeline's
document-level handler would abort the whole document; instead
`process_image` returns the ordinary page-failure value `none`, and a
2-page run whose page 2 always fails with a non-transient `ClientError`
still completes with page 2 merely skipped. -/
theorem c3_counterexample :
    process_image (fun _ => CallResult.clientError) 2 = none ∧
    (process_single_pdf "job" "doc.pdf" true 2 false c3Provider).map
      (fun d => (d.total_pages, d.pages.length, d.total_components)) =
      some (2, 1, 2) := by decide

/-- C8 (counterexample to the claim as stated): direct ProcessedDocument
construction with `total_components` (100) exceeding
`expected_components` (10) succeeds when the caller supplies an in-range
completeness (1/2): the le=1.0 bound is checked against the supplied
value, and the validator then stores the recomputed ratio 10 without
re-checking it. -/
theorem c8_counterexample :
    (mkProcessedDocument "j" "f.pdf" 1 100 10 (mkRat 1 2)
        ComponentStatistics.init 0 []).isSome = true ∧
    (mkProcessedDocument "j" "f.pdf" 1 100 10 (mkRat 1 2)
        ComponentStatistics.init 0 []).map ProcessedDocument.completeness =
      some 10 := by decide

/-- C8 (amended): `process_single_pdf` passes
`total_components / expected_components` as the completeness argument
itself, so whenever the run accumulates more than `8 × page_count`
components that argument exceeds the le=1.0 bound, `ProcessedDocument`
construction raises, and `process_single_pdf` returns failure. -/
theorem c8_overflow_makes_pipeline_fail :
    ∀ (jid fn : String) (page_count : Nat)
      (provider : Nat → Nat → CallResult),
      8 * (page_count : Int) <
        (pipelineState provider page_count).total_components →
      process_single_pdf jid fn true page_count false provider = none := by
  intro jid fn pc provider h
  have heq : process_single_pdf jid fn true pc false provider =
      mkProcessedDocument jid fn (pc : Int)
        (pipelineState provider pc).total_components
        (estimate_expected_components (pc : Int))
        (if 0 < estimate_expected_components (pc : Int) then
          ((pipelineState provider pc).total_components : Rat) /
            ((estimate_expected_components (pc : Int)) : Rat)
        else 1)
        (pipelineState provider pc).component_stats
        (if 0 < (pipelineState provider pc).confidence_count then
          (pipelineState provider pc).confidence_sum /
            ((pipelineState provider pc).confidence_count : Rat)
        else 0)
        (pipelineState provider pc).pages := rfl
  rw [heq]
  cases pc with
  | zero =>
    exfalso
    have h0 : (pipelineState provider 0).total_components = 0 := rfl
    rw [h0] at h
    simp at h
  | succ n =>
    have hexp : (0 : Int) < estimate_expected_components ((n + 1 : Nat) : Int) := by
      rw [estimate_expected_components]
      omega
    have hlt : estimate_expected_components ((n + 1 : Nat) : Int) <
        (pipelineState provider (n + 1)).total_components := by
      rw [estimate_expected_components]
      omega
    apply mkProcessedDocument_eq_none
    rw [if_pos hexp, not_le]
    have hden : (0 : Rat) <
        ((estimate_expected_components ((n + 1 : Nat) : Int)) : Rat) := by
      exact_mod_cast hexp
    rw [one_lt_div hden]
    exact_mod_cast hlt

/-- Witness for C8 (amended): a 1-page run whose page answers with nine
valid components (exceeding the 8-per-page expectation) returns `None`. -/
theorem c8_witness :
    8 * ((1 : Nat) : Int) <
      (pipelineState (fun _ _ => CallResult.ok nineCompResponse) 1).total_components ∧
    process_single_pdf "j" "f.pdf" true 1 false
      (fun _ _ => CallResult.ok nineCompResponse) = none :=
  ⟨by decide,
   c8_overflow_makes_pipeline_fail "j" "f.pdf" 1
     (fun _ _ => CallResult.ok nineCompResponse) (by decide)⟩

/-- C10: in every document assembled by `process_single_pdf`, the five
per-type counters of the component statistics sum to `total_components`:
each validated component's type lies in the closed enumeration, so exactly
one counter is incremented per component folded into the document. -/
theorem c10_stats_sum_equals_total :
    ∀ (jid fn : String) (pv : Bool) (pc : Nat) (cf : Bool)
      (provider : Nat → Nat → CallResult) (doc : ProcessedDocument),
      process_single_pdf jid fn pv pc cf provider = some doc →
      statsSum doc.component_statistics = doc.total_components := by
  intro jid fn pv pc cf provider doc h
  cases pv with
  | false => exact absurd h (by simp [process_single_pdf])
  | true =>
    cases cf with
    | true => exact absurd h (by simp [process_single_pdf])
    | false =>
      have heq : process_single_pdf jid fn true pc false provider =
          mkProcessedDocument jid fn (pc : Int)
            (pipelineState provider pc).total_components
            (estimate_expected_components (pc : Int))
            (if 0 < estimate_expected_components (pc : Int) then
              ((pipelineState provider pc).total_components : Rat) /
                ((estimate_expected_components (pc : Int)) : Rat)
            else 1)
            (pipelineState provider pc).component_stats
            (if 0 < (pipelineState provider pc).confidence_count then
              (pipelineState provider pc).confidence_sum /
                ((pipelineState provider pc).confidence_count : Rat)
            else 0)
            (pipelineState provider pc).pages := rfl
      rw [heq] at h
      obtain ⟨-, htc, -, -, hcs, -⟩ :=
        mkProcessedDocument_eq_some _ _ _ _ _ _ _ _ _ _ h
      rw [htc, hcs]
      exact processPages_statsSum provider _ _
        (by simp [FoldState.init, ComponentStatistics.init, statsSum])

/-- Witness for C10: the tally invariant at the concrete 1-page run that
produces `docOnePage`. -/
theorem c10_witness :
    statsSum docOnePage.component_statistics = docOnePage.total_components :=
  c10_stats_sum_equals_total "j" "f.pdf" true 1 false
    (fun _ _ => CallResult.ok twoCompResponse) docOnePage (by decide)

end PDFProc
